import Mathlib

/-!
Verification of the FlareProxy Go adapter (main.go of kljensen/flareproxygo).

The program is embedded shallowly: the two HTTP handlers (ProxyHandler and
DirectHandler) become pure functions of an explicit upstream oracle that
models one round-trip through the configured FlareSolverr endpoint
(client.Do, io.ReadAll and json.Unmarshal collapsed into one outcome value).
Logging is a side effect with no influence on control flow and is not
modeled.  The json.Marshal and http.NewRequest error branches of the source
are omitted: marshalling a struct of strings and integers never fails in Go,
and request construction fails only for an unparsable configuration URL,
which is fixed per process and not part of any claim.
-/

namespace FlareProxy

/-! Go string primitives used by main.go: strings.Index (implicit in
Replace/SplitN), strings.Replace with count 1, strings.SplitN with n = 2,
and strings.HasPrefix, all modeled over character lists. -/

/-- Index of the first occurrence of the pattern inside the second list,
as Go strings.Index computes it (leftmost match, 0 for an empty pattern). -/
def listIndexOf (pat : List Char) : List Char → Option Nat
  | [] => if pat.isPrefixOf ([] : List Char) then some 0 else none
  | c :: rest =>
    if pat.isPrefixOf (c :: rest) then some 0
    else (listIndexOf pat rest).map (· + 1)

/-- Index of the first occurrence of a pattern in a string. -/
def strIndexOf (s pat : String) : Option Nat :=
  listIndexOf pat.toList s.toList

/-- Models Go strings.HasPrefix. -/
def goStartsWith (s p : String) : Bool :=
  p.toList.isPrefixOf s.toList

/-- Models Go strings.Replace(s, old, new, 1): replace the first occurrence
of old by new, leaving s unchanged when old does not occur. -/
def goReplace1 (s old new : String) : String :=
  match strIndexOf s old with
  | none => s
  | some i => String.mk (s.toList.take i ++ new.toList ++ s.toList.drop (i + old.toList.length))

/-- Models Go strings.SplitN(s, sep, 2) for a nonempty separator: at most
two parts, split around the first occurrence of sep. -/
def goSplitN2 (s sep : String) : List String :=
  match strIndexOf s sep with
  | none => [s]
  | some i => [String.mk (s.toList.take i), String.mk (s.toList.drop (i + sep.toList.length))]

/-- Drop the first n characters of a string. -/
def stringDrop (s : String) (n : Nat) : String :=
  String.mk (s.toList.drop n)

/-! Data model: the Go structs of main.go. -/

/-- Go struct FlareSolverrRequest: the JSON command envelope with fields
cmd, url and maxTimeout. -/
structure FlareSolverrRequest where
  cmd : String
  url : String
  maxTimeout : Int
deriving DecidableEq

/-- The solution sub-object of Go struct FlareSolverrResponse.  The cookies
field is never inspected by the program and is omitted from the model. -/
structure FlareSolution where
  response : String
  status : Int
  userAgent : String
deriving DecidableEq

/-- Go struct FlareSolverrResponse as it stands after json.Unmarshal. -/
structure FlareSolverrResponse where
  solution : FlareSolution
  status : String
  message : String
deriving DecidableEq

/-- A well-formed JSON solution object: each field present or absent. -/
structure JsonSolution where
  response : Option String
  status : Option Int
  userAgent : Option String
deriving DecidableEq

/-- A well-formed JSON reply body: each top-level field present or absent.
An empty JSON object is the value with all fields absent. -/
structure JsonFlareBody where
  solution : Option JsonSolution
  status : Option String
  message : Option String
deriving DecidableEq

/-- Go json.Unmarshal zero-value semantics for the solution sub-object:
absent fields decode to the zero value of their type. -/
def decodeSolution : Option JsonSolution → FlareSolution
  | none => { response := "", status := 0, userAgent := "" }
  | some js =>
      { response := js.response.getD ""
        status := js.status.getD 0
        userAgent := js.userAgent.getD "" }

/-- Go json.Unmarshal zero-value semantics for FlareSolverrResponse:
a well-formed JSON body always decodes, absent fields becoming zero
values (empty strings, zero integers). -/
def decodeFlare (j : JsonFlareBody) : FlareSolverrResponse :=
  { solution := decodeSolution j.solution
    status := j.status.getD ""
    message := j.message.getD "" }

/-- Outcome of one round-trip to the upstream service: a transport failure
from client.Do, a body-read failure from io.ReadAll, a json.Unmarshal
failure on a body that is not well-formed JSON, or a well-formed JSON
body. -/
inductive UpstreamReply where
  | transportError (cause : String)
  | readError (cause : String)
  | malformedBody (cause : String)
  | jsonBody (j : JsonFlareBody)
deriving DecidableEq

/-- The outbound HTTP request the adapter issues: method and target from
http.NewRequest, the Content-Type header set right after, and the
marshalled FlareSolverrRequest as body. -/
structure OutboundRequest where
  method : String
  url : String
  contentType : String
  body : FlareSolverrRequest
deriving DecidableEq

/-- Both handlers build their upstream request the same way:
http.NewRequest("POST", flareSolverrURL, jsonData) followed by
req.Header.Set("Content-Type", "application/json"). -/
def mkOutbound (baseURL : String) (rd : FlareSolverrRequest) : OutboundRequest :=
  { method := "POST", url := baseURL, contentType := "application/json", body := rd }

/-- The upstream service as a deterministic oracle from outbound request to
reply outcome. -/
abbrev Upstream := OutboundRequest → UpstreamReply

/-- Body of the client-facing HTTP response: either raw bytes written with
w.Write, or the serialized JSON object with a single field named error
holding msg, as json.NewEncoder(w).Encode produces for the error map. -/
inductive ResponseBody where
  | raw (s : String)
  | jsonError (msg : String)
deriving DecidableEq

/-- The client-facing HTTP response: status code, Content-Type header and
body. -/
structure HttpResponse where
  status : Nat
  contentType : String
  body : ResponseBody
deriving DecidableEq

/-- The sendError helper shared (textually) by both handlers: log, set
Content-Type application/json, status 500, encode the error object. -/
def sendError (message : String) : HttpResponse :=
  { status := 500, contentType := "application/json", body := .jsonError message }

/-- Go net/http's Error helper: Content-Type text/plain; charset=utf-8 and
the message written with a trailing newline by fmt.Fprintln. -/
def goHttpError (message : String) (code : Nat) : HttpResponse :=
  { status := code
    contentType := "text/plain; charset=utf-8"
    body := .raw (message ++ "\n") }

/-- The message of ProxyHandler.sendConnectError. -/
def connectErrorMessage : String :=
  "CONNECT method is not supported. This is an HTTP-only proxy adapter for FlareSolverr. " ++
    "Please use HTTP URLs (e.g., http://example.com) even for HTTPS sites. " ++
    "The proxy will automatically handle HTTPS conversion when communicating with FlareSolverr."

/-- ProxyHandler.sendConnectError: 405, plain text, message written raw. -/
def sendConnectError : HttpResponse :=
  { status := 405
    contentType := "text/plain; charset=utf-8"
    body := .raw connectErrorMessage }

/-! Basic lemmas about the string primitives. -/

/-- When the pattern is a prefix, the first occurrence is at index 0. -/
theorem listIndexOf_of_isPrefixOf {pat s : List Char} (h : pat.isPrefixOf s = true) :
    listIndexOf pat s = some 0 := by
  cases s <;> simp [listIndexOf, h]

/-- goStartsWith unfolded to existence of a suffix. -/
theorem goStartsWith_iff {s p : String} :
    goStartsWith s p = true ↔ ∃ t, p.toList ++ t = s.toList := by
  unfold goStartsWith
  rw [List.isPrefixOf_iff_prefix]
  exact Iff.rfl

/-- Replacing the first occurrence of a pattern that sits at the very start
of the string substitutes it in place. -/
theorem goReplace1_of_startsWith {s old : String} (new : String) {t : List Char}
    (h : s.toList = old.toList ++ t) :
    goReplace1 s old new = String.mk (new.toList ++ t) := by
  have hpre : old.toList.isPrefixOf s.toList = true := by
    rw [List.isPrefixOf_iff_prefix]
    exact ⟨t, h.symm⟩
  unfold goReplace1 strIndexOf
  rw [listIndexOf_of_isPrefixOf hpre]
  simp only [Nat.zero_add, List.take_zero, List.nil_append]
  rw [h, List.drop_left]

/-- After the HTTPS scheme is replaced by HTTP, the URL no longer starts
with the HTTPS scheme: the fallback in forwardToFlareSolverr can fire at
most once. -/
theorem goStartsWith_replace_https {s : String}
    (h : goStartsWith s "https://" = true) :
    goStartsWith (goReplace1 s "https://" "http://") "https://" = false := by
  obtain ⟨t, ht⟩ := goStartsWith_iff.mp h
  rw [goReplace1_of_startsWith "http://" ht.symm]
  simp only [goStartsWith]
  show ("https://".toList.isPrefixOf ("http://".toList ++ t)) = false
  simp [List.isPrefixOf]

/-! The handlers. -/

/-- DirectHandler's command selection from the inbound HTTP method: GET
maps to request.get, POST to request.post, anything else defaults to
request.get with a logged warning. -/
def cmdForMethod (method : String) : String :=
  if method = "GET" then "request.get"
  else if method = "POST" then "request.post"
  else "request.get"

/-- DirectHandler.forwardToFlareSolverr: build the command envelope, POST
it to the upstream, unwrap the reply; on a well-formed reply whose status
is not ok and a target URL still carrying the HTTPS scheme, retry once
with the scheme replaced by HTTP (the recursive self-call of the source,
bounded because the replaced URL no longer starts with the HTTPS scheme).
The second component lists the upstream calls issued, in order. -/
def forwardToFlareSolverr (upstream : Upstream) (baseURL : String)
    (targetURL cmd : String) : HttpResponse × List OutboundRequest :=
  let requestData : FlareSolverrRequest :=
    { cmd := cmd, url := targetURL, maxTimeout := 60000 }
  let req : OutboundRequest := mkOutbound baseURL requestData
  match upstream req with
  | .transportError c => (sendError ("Failed to connect to FlareSolverr: " ++ c), [req])
  | .readError c => (sendError ("Failed to read response: " ++ c), [req])
  | .malformedBody c => (sendError ("Failed to parse response: " ++ c), [req])
  | .jsonBody j =>
    let flareResponse := decodeFlare j
    if flareResponse.status ≠ "ok" then
      if h : goStartsWith targetURL "https://" = true then
        let httpURL := goReplace1 targetURL "https://" "http://"
        let r := forwardToFlareSolverr upstream baseURL httpURL cmd
        (r.1, req :: r.2)
      else
        (sendError ("FlareSolverr error: " ++ flareResponse.message), [req])
    else
      ({ status := 200
         contentType := "text/html; charset=utf-8"
         body := .raw flareResponse.solution.response }, [req])
termination_by (if goStartsWith targetURL "https://" = true then 1 else 0)
decreasing_by
  rw [if_pos h, if_neg (by rw [goStartsWith_replace_https h]; exact Bool.false_ne_true)]
  exact Nat.zero_lt_one

/-- DirectHandler.ServeHTTP: reject the root or empty path, strip the
leading slash, split off the domain at the first remaining slash, rebuild
the HTTPS target URL with the remaining path and raw query, pick the
command from the method and forward. -/
def directServeHTTP (upstream : Upstream) (baseURL method path rawQuery : String) :
    HttpResponse × List OutboundRequest :=
  if path = "/" ∨ path = "" then
    (goHttpError "Invalid URL format. Use: http://localhost:PORT/domain.com/path" 400, [])
  else
    let path1 := if goStartsWith path "/" then stringDrop path 1 else path
    match goSplitN2 path1 "/" with
    | [] =>
      (goHttpError "Invalid URL format. Use: http://localhost:PORT/domain.com/path" 400, [])
    | domain :: restParts =>
      let remainingPath :=
        match restParts with
        | [] => ""
        | r :: _ => "/" ++ r
      let remainingPath2 :=
        if rawQuery ≠ "" then remainingPath ++ "?" ++ rawQuery else remainingPath
      let targetURL := "https://" ++ domain ++ remainingPath2
      forwardToFlareSolverr upstream baseURL targetURL (cmdForMethod method)

/-- Sentinel response no real branch produces, used to state that the
guarded second 400 branch of DirectHandler.ServeHTTP is unreachable. -/
def unreachableSentinel : HttpResponse :=
  { status := 999, contentType := "", body := .raw "" }

/-- DirectHandler.ServeHTTP with the guarded second 400 branch replaced by
an arbitrary sentinel; coincidence with directServeHTTP on every input
shows that branch is dead code. -/
def directServeGuardFree (upstream : Upstream) (baseURL method path rawQuery : String) :
    HttpResponse × List OutboundRequest :=
  if path = "/" ∨ path = "" then
    (goHttpError "Invalid URL format. Use: http://localhost:PORT/domain.com/path" 400, [])
  else
    let path1 := if goStartsWith path "/" then stringDrop path 1 else path
    match goSplitN2 path1 "/" with
    | [] => (unreachableSentinel, [])
    | domain :: restParts =>
      let remainingPath :=
        match restParts with
        | [] => ""
        | r :: _ => "/" ++ r
      let remainingPath2 :=
        if rawQuery ≠ "" then remainingPath ++ "?" ++ rawQuery else remainingPath
      let targetURL := "https://" ++ domain ++ remainingPath2
      forwardToFlareSolverr upstream baseURL targetURL (cmdForMethod method)

/-- ProxyHandler.handleRequest: rewrite the first http scheme occurrence
to https, build the fetch command, POST it upstream and unwrap; no
fallback retry exists on this path. -/
def proxyHandleRequest (upstream : Upstream) (baseURL urlStr : String) :
    HttpResponse × List OutboundRequest :=
  let url := goReplace1 urlStr "http://" "https://"
  let requestData : FlareSolverrRequest :=
    { cmd := "request.get", url := url, maxTimeout := 60000 }
  let req : OutboundRequest := mkOutbound baseURL requestData
  match upstream req with
  | .transportError c => (sendError ("Failed to connect to FlareSolverr: " ++ c), [req])
  | .readError c => (sendError ("Failed to read response: " ++ c), [req])
  | .malformedBody c => (sendError ("Failed to parse response: " ++ c), [req])
  | .jsonBody j =>
    let flareResponse := decodeFlare j
    if flareResponse.status ≠ "ok" then
      (sendError ("FlareSolverr error: " ++ flareResponse.message), [req])
    else
      ({ status := 200
         contentType := "text/html; charset=utf-8"
         body := .raw flareResponse.solution.response }, [req])

/-- ProxyHandler.ServeHTTP: GET is handled, CONNECT is rejected with the
explanatory 405, every other method gets the plain 405 from http.Error. -/
def proxyServeHTTP (upstream : Upstream) (baseURL method urlStr : String) :
    HttpResponse × List OutboundRequest :=
  if method = "GET" then proxyHandleRequest upstream baseURL urlStr
  else if method = "CONNECT" then (sendConnectError, [])
  else (goHttpError "Method not allowed" 405, [])

/-! Unfolding lemmas for forwardToFlareSolverr, one per upstream outcome
of the first attempt. -/

theorem forward_transportError {upstream : Upstream} {baseURL targetURL cmd cause : String}
    (h : upstream (mkOutbound baseURL ⟨cmd, targetURL, 60000⟩) = .transportError cause) :
    forwardToFlareSolverr upstream baseURL targetURL cmd =
      (sendError ("Failed to connect to FlareSolverr: " ++ cause),
        [mkOutbound baseURL ⟨cmd, targetURL, 60000⟩]) := by
  unfold forwardToFlareSolverr
  simp only [h]

theorem forward_readError {upstream : Upstream} {baseURL targetURL cmd cause : String}
    (h : upstream (mkOutbound baseURL ⟨cmd, targetURL, 60000⟩) = .readError cause) :
    forwardToFlareSolverr upstream baseURL targetURL cmd =
      (sendError ("Failed to read response: " ++ cause),
        [mkOutbound baseURL ⟨cmd, targetURL, 60000⟩]) := by
  unfold forwardToFlareSolverr
  simp only [h]

theorem forward_malformedBody {upstream : Upstream} {baseURL targetURL cmd cause : String}
    (h : upstream (mkOutbound baseURL ⟨cmd, targetURL, 60000⟩) = .malformedBody cause) :
    forwardToFlareSolverr upstream baseURL targetURL cmd =
      (sendError ("Failed to parse response: " ++ cause),
        [mkOutbound baseURL ⟨cmd, targetURL, 60000⟩]) := by
  unfold forwardToFlareSolverr
  simp only [h]

theorem forward_ok {upstream : Upstream} {baseURL targetURL cmd : String} {j : JsonFlareBody}
    (h : upstream (mkOutbound baseURL ⟨cmd, targetURL, 60000⟩) = .jsonBody j)
    (hs : (decodeFlare j).status = "ok") :
    forwardToFlareSolverr upstream baseURL targetURL cmd =
      ({ status := 200
         contentType := "text/html; charset=utf-8"
         body := .raw (decodeFlare j).solution.response },
        [mkOutbound baseURL ⟨cmd, targetURL, 60000⟩]) := by
  unfold forwardToFlareSolverr
  simp only [h, hs]
  simp

theorem forward_nonOk_notHttps {upstream : Upstream} {baseURL targetURL cmd : String}
    {j : JsonFlareBody}
    (h : upstream (mkOutbound baseURL ⟨cmd, targetURL, 60000⟩) = .jsonBody j)
    (hs : (decodeFlare j).status ≠ "ok")
    (hp : goStartsWith targetURL "https://" = false) :
    forwardToFlareSolverr upstream baseURL targetURL cmd =
      (sendError ("FlareSolverr error: " ++ (decodeFlare j).message),
        [mkOutbound baseURL ⟨cmd, targetURL, 60000⟩]) := by
  unfold forwardToFlareSolverr
  simp only [h, hs, hp]
  simp [hs, hp]

theorem forward_nonOk_https {upstream : Upstream} {baseURL targetURL cmd : String}
    {j : JsonFlareBody}
    (h : upstream (mkOutbound baseURL ⟨cmd, targetURL, 60000⟩) = .jsonBody j)
    (hs : (decodeFlare j).status ≠ "ok")
    (hp : goStartsWith targetURL "https://" = true) :
    forwardToFlareSolverr upstream baseURL targetURL cmd =
      ((forwardToFlareSolverr upstream baseURL
          (goReplace1 targetURL "https://" "http://") cmd).1,
        mkOutbound baseURL ⟨cmd, targetURL, 60000⟩ ::
          (forwardToFlareSolverr upstream baseURL
            (goReplace1 targetURL "https://" "http://") cmd).2) := by
  conv_lhs => rw [forwardToFlareSolverr]
  simp only [h, hs, hp]
  simp [hs, hp]

/-- Whatever the outcome, an attempt whose target URL does not start with
the HTTPS scheme issues exactly one upstream call. -/
theorem forward_calls_notHttps {upstream : Upstream} {baseURL targetURL cmd : String}
    (hp : goStartsWith targetURL "https://" = false) :
    (forwardToFlareSolverr upstream baseURL targetURL cmd).2 =
      [mkOutbound baseURL ⟨cmd, targetURL, 60000⟩] := by
  cases hrep : upstream (mkOutbound baseURL ⟨cmd, targetURL, 60000⟩) with
  | transportError c => rw [forward_transportError hrep]
  | readError c => rw [forward_readError hrep]
  | malformedBody c => rw [forward_malformedBody hrep]
  | jsonBody j =>
    by_cases hs : (decodeFlare j).status = "ok"
    · rw [forward_ok hrep hs]
    · rw [forward_nonOk_notHttps hrep hs hp]

/-- When the fallback does not fire (no well-formed non-ok reply on an
HTTPS target), exactly one upstream call is issued. -/
theorem forward_calls_noFallback {upstream : Upstream} {baseURL targetURL cmd : String}
    (hnf : ¬ ∃ j, upstream (mkOutbound baseURL ⟨cmd, targetURL, 60000⟩) = .jsonBody j ∧
        (decodeFlare j).status ≠ "ok" ∧ goStartsWith targetURL "https://" = true) :
    (forwardToFlareSolverr upstream baseURL targetURL cmd).2 =
      [mkOutbound baseURL ⟨cmd, targetURL, 60000⟩] := by
  cases hrep : upstream (mkOutbound baseURL ⟨cmd, targetURL, 60000⟩) with
  | transportError c => rw [forward_transportError hrep]
  | readError c => rw [forward_readError hrep]
  | malformedBody c => rw [forward_malformedBody hrep]
  | jsonBody j =>
    by_cases hs : (decodeFlare j).status = "ok"
    · rw [forward_ok hrep hs]
    · cases hp : goStartsWith targetURL "https://" with
      | false => rw [forward_nonOk_notHttps hrep hs hp]
      | true => exact absurd ⟨j, hrep, hs, hp⟩ hnf

/-- When the fallback fires, the full call trace is the HTTPS attempt
followed by the single HTTP attempt with the scheme replaced. -/
theorem forward_calls_fallback {upstream : Upstream} {baseURL targetURL cmd : String}
    {j : JsonFlareBody}
    (h : upstream (mkOutbound baseURL ⟨cmd, targetURL, 60000⟩) = .jsonBody j)
    (hs : (decodeFlare j).status ≠ "ok")
    (hp : goStartsWith targetURL "https://" = true) :
    (forwardToFlareSolverr upstream baseURL targetURL cmd).2 =
      [mkOutbound baseURL ⟨cmd, targetURL, 60000⟩,
        mkOutbound baseURL ⟨cmd, goReplace1 targetURL "https://" "http://", 60000⟩] := by
  rw [forward_nonOk_https h hs hp]
  simp [forward_calls_notHttps (goStartsWith_replace_https hp)]

/-- Never more than two upstream calls per direct-mode forward. -/
theorem forward_calls_le_two {upstream : Upstream} {baseURL targetURL cmd : String} :
    (forwardToFlareSolverr upstream baseURL targetURL cmd).2.length ≤ 2 := by
  by_cases hnf : ∃ j, upstream (mkOutbound baseURL ⟨cmd, targetURL, 60000⟩) = .jsonBody j ∧
      (decodeFlare j).status ≠ "ok" ∧ goStartsWith targetURL "https://" = true
  · obtain ⟨j, hrep, hs, hp⟩ := hnf
    rw [forward_calls_fallback hrep hs hp]
    simp
  · rw [forward_calls_noFallback hnf]
    simp

/-- The client-facing response of any direct-mode forward is either the
unwrapped 200 HTML success or a 500 JSON error object. -/
theorem forward_shape_notHttps {upstream : Upstream} {baseURL targetURL cmd : String}
    (hp : goStartsWith targetURL "https://" = false) :
    ((forwardToFlareSolverr upstream baseURL targetURL cmd).1.status = 200 ∧
        (forwardToFlareSolverr upstream baseURL targetURL cmd).1.contentType =
          "text/html; charset=utf-8" ∧
        ∃ s, (forwardToFlareSolverr upstream baseURL targetURL cmd).1.body = .raw s) ∨
      ∃ m, (forwardToFlareSolverr upstream baseURL targetURL cmd).1 = sendError m := by
  cases hrep : upstream (mkOutbound baseURL ⟨cmd, targetURL, 60000⟩) with
  | transportError c => rw [forward_transportError hrep]; exact Or.inr ⟨_, rfl⟩
  | readError c => rw [forward_readError hrep]; exact Or.inr ⟨_, rfl⟩
  | malformedBody c => rw [forward_malformedBody hrep]; exact Or.inr ⟨_, rfl⟩
  | jsonBody j =>
    by_cases hs : (decodeFlare j).status = "ok"
    · rw [forward_ok hrep hs]; exact Or.inl ⟨rfl, rfl, _, rfl⟩
    · rw [forward_nonOk_notHttps hrep hs hp]; exact Or.inr ⟨_, rfl⟩

/-- Response shape for every direct-mode forward, fallback included. -/
theorem forward_shape {upstream : Upstream} {baseURL targetURL cmd : String} :
    ((forwardToFlareSolverr upstream baseURL targetURL cmd).1.status = 200 ∧
        (forwardToFlareSolverr upstream baseURL targetURL cmd).1.contentType =
          "text/html; charset=utf-8" ∧
        ∃ s, (forwardToFlareSolverr upstream baseURL targetURL cmd).1.body = .raw s) ∨
      ∃ m, (forwardToFlareSolverr upstream baseURL targetURL cmd).1 = sendError m := by
  cases hrep : upstream (mkOutbound baseURL ⟨cmd, targetURL, 60000⟩) with
  | transportError c => rw [forward_transportError hrep]; exact Or.inr ⟨_, rfl⟩
  | readError c => rw [forward_readError hrep]; exact Or.inr ⟨_, rfl⟩
  | malformedBody c => rw [forward_malformedBody hrep]; exact Or.inr ⟨_, rfl⟩
  | jsonBody j =>
    by_cases hs : (decodeFlare j).status = "ok"
    · rw [forward_ok hrep hs]; exact Or.inl ⟨rfl, rfl, _, rfl⟩
    · cases hp : goStartsWith targetURL "https://" with
      | false => rw [forward_nonOk_notHttps hrep hs hp]; exact Or.inr ⟨_, rfl⟩
      | true =>
        rw [forward_nonOk_https hrep hs hp]
        exact forward_shape_notHttps (goStartsWith_replace_https hp)

/-! Lemmas about goSplitN2 and the direct-mode path dissection. -/

/-- goSplitN2 always yields at least one part, as Go strings.SplitN does. -/
theorem goSplitN2_ne_nil (s sep : String) : goSplitN2 s sep ≠ [] := by
  unfold goSplitN2
  cases strIndexOf s sep <;> simp

/-- The first occurrence of the separator in a list that is an
occurrence-free block followed by the separator sits right after the
block. -/
theorem listIndexOf_slash {d : List Char} (r : List Char) (hd : '/' ∉ d) :
    listIndexOf ['/'] (d ++ '/' :: r) = some d.length := by
  induction d with
  | nil => simp [listIndexOf, List.isPrefixOf]
  | cons c cs ih =>
    have hc : c ≠ '/' := fun hcc => hd (by simp [hcc])
    have hcs : '/' ∉ cs := fun hmem => hd (List.mem_cons_of_mem c hmem)
    have hpre : (['/'] : List Char).isPrefixOf (c :: (cs ++ '/' :: r)) = false := by
      simp [List.isPrefixOf, Ne.symm hc]
    simp [listIndexOf, hpre, ih hcs]

/-- Splitting a domain-slash-rest string at the first slash recovers the
domain and the rest, when the domain itself contains no slash. -/
theorem goSplitN2_domain (d r : String) (hd : '/' ∉ d.toList) :
    goSplitN2 (d ++ "/" ++ r) "/" = [d, r] := by
  have hlist : (d ++ "/" ++ r).toList = d.toList ++ '/' :: r.toList := by
    show (d ++ "/" ++ r).data = d.data ++ '/' :: r.data
    simp [String.data_append]
  unfold goSplitN2 strIndexOf
  rw [show ("/" : String).toList = ['/'] from rfl, hlist, listIndexOf_slash r.toList hd]
  have htake : (d.toList ++ '/' :: r.toList).take d.toList.length = d.toList :=
    List.take_left d.toList ('/' :: r.toList)
  have hdrop : (d.toList ++ '/' :: r.toList).drop (d.toList.length + 1) = r.toList := by
    rw [List.append_cons]
    exact List.drop_left' (by simp)
  simp only [List.length_singleton, htake, hdrop]
  rfl

/-- Stripping the single leading slash. -/
theorem stringDrop_slash (s : String) : stringDrop ("/" ++ s) 1 = s := by
  unfold stringDrop
  show String.mk (("/" ++ s).data.drop 1) = s
  rw [String.data_append]
  rfl

/-- A slash-prefixed string starts with a slash. -/
theorem goStartsWith_slash (s : String) : goStartsWith ("/" ++ s) "/" = true := by
  unfold goStartsWith
  rw [List.isPrefixOf_iff_prefix]
  exact ⟨s.toList, by rw [← String.data_append]; rfl⟩

/-! Unfolding lemmas for proxyHandleRequest, one per upstream outcome. -/

theorem proxy_transportError {upstream : Upstream} {baseURL urlStr cause : String}
    (h : upstream (mkOutbound baseURL
        ⟨"request.get", goReplace1 urlStr "http://" "https://", 60000⟩) = .transportError cause) :
    proxyHandleRequest upstream baseURL urlStr =
      (sendError ("Failed to connect to FlareSolverr: " ++ cause),
        [mkOutbound baseURL ⟨"request.get", goReplace1 urlStr "http://" "https://", 60000⟩]) := by
  unfold proxyHandleRequest
  simp only [h]

theorem proxy_readError {upstream : Upstream} {baseURL urlStr cause : String}
    (h : upstream (mkOutbound baseURL
        ⟨"request.get", goReplace1 urlStr "http://" "https://", 60000⟩) = .readError cause) :
    proxyHandleRequest upstream baseURL urlStr =
      (sendError ("Failed to read response: " ++ cause),
        [mkOutbound baseURL ⟨"request.get", goReplace1 urlStr "http://" "https://", 60000⟩]) := by
  unfold proxyHandleRequest
  simp only [h]

theorem proxy_malformedBody {upstream : Upstream} {baseURL urlStr cause : String}
    (h : upstream (mkOutbound baseURL
        ⟨"request.get", goReplace1 urlStr "http://" "https://", 60000⟩) = .malformedBody cause) :
    proxyHandleRequest upstream baseURL urlStr =
      (sendError ("Failed to parse response: " ++ cause),
        [mkOutbound baseURL ⟨"request.get", goReplace1 urlStr "http://" "https://", 60000⟩]) := by
  unfold proxyHandleRequest
  simp only [h]

theorem proxy_ok {upstream : Upstream} {baseURL urlStr : String} {j : JsonFlareBody}
    (h : upstream (mkOutbound baseURL
        ⟨"request.get", goReplace1 urlStr "http://" "https://", 60000⟩) = .jsonBody j)
    (hs : (decodeFlare j).status = "ok") :
    proxyHandleRequest upstream baseURL urlStr =
      ({ status := 200
         contentType := "text/html; charset=utf-8"
         body := .raw (decodeFlare j).solution.response },
        [mkOutbound baseURL ⟨"request.get", goReplace1 urlStr "http://" "https://", 60000⟩]) := by
  unfold proxyHandleRequest
  simp only [h]
  simp [hs]

theorem proxy_nonOk {upstream : Upstream} {baseURL urlStr : String} {j : JsonFlareBody}
    (h : upstream (mkOutbound baseURL
        ⟨"request.get", goReplace1 urlStr "http://" "https://", 60000⟩) = .jsonBody j)
    (hs : (decodeFlare j).status ≠ "ok") :
    proxyHandleRequest upstream baseURL urlStr =
      (sendError ("FlareSolverr error: " ++ (decodeFlare j).message),
        [mkOutbound baseURL ⟨"request.get", goReplace1 urlStr "http://" "https://", 60000⟩]) := by
  unfold proxyHandleRequest
  simp only [h]
  simp [hs]

/-- ProxyHandler.handleRequest always issues exactly one upstream call. -/
theorem proxy_calls_single {upstream : Upstream} {baseURL urlStr : String} :
    (proxyHandleRequest upstream baseURL urlStr).2 =
      [mkOutbound baseURL ⟨"request.get", goReplace1 urlStr "http://" "https://", 60000⟩] := by
  cases hrep : upstream (mkOutbound baseURL
      ⟨"request.get", goReplace1 urlStr "http://" "https://", 60000⟩) with
  | transportError c => rw [proxy_transportError hrep]
  | readError c => rw [proxy_readError hrep]
  | malformedBody c => rw [proxy_malformedBody hrep]
  | jsonBody j =>
    by_cases hs : (decodeFlare j).status = "ok"
    · rw [proxy_ok hrep hs]
    · rw [proxy_nonOk hrep hs]

/-- The first upstream call of any direct-mode forward carries the
untouched HTTPS-first target URL and command. -/
theorem forward_calls_head {upstream : Upstream} {baseURL targetURL cmd : String} :
    ∃ more, (forwardToFlareSolverr upstream baseURL targetURL cmd).2 =
      mkOutbound baseURL ⟨cmd, targetURL, 60000⟩ :: more := by
  by_cases hnf : ∃ j, upstream (mkOutbound baseURL ⟨cmd, targetURL, 60000⟩) = .jsonBody j ∧
      (decodeFlare j).status ≠ "ok" ∧ goStartsWith targetURL "https://" = true
  · obtain ⟨j, hrep, hs, hp⟩ := hnf
    exact ⟨_, forward_calls_fallback hrep hs hp⟩
  · exact ⟨[], forward_calls_noFallback hnf⟩

/-- Every upstream call issued by a direct-mode forward carries the
command selected for the inbound request. -/
theorem forward_calls_cmd {upstream : Upstream} {baseURL targetURL cmd : String} :
    ∀ r ∈ (forwardToFlareSolverr upstream baseURL targetURL cmd).2, r.body.cmd = cmd := by
  by_cases hnf : ∃ j, upstream (mkOutbound baseURL ⟨cmd, targetURL, 60000⟩) = .jsonBody j ∧
      (decodeFlare j).status ≠ "ok" ∧ goStartsWith targetURL "https://" = true
  · obtain ⟨j, hrep, hs, hp⟩ := hnf
    rw [forward_calls_fallback hrep hs hp]
    intro r hr
    simp only [List.mem_cons, List.not_mem_nil, or_false] at hr
    rcases hr with h | h <;> (subst h; rfl)
  · rw [forward_calls_noFallback hnf]
    intro r hr
    rw [List.mem_singleton] at hr
    subst hr
    rfl

/-! Characterization lemmas for DirectHandler.ServeHTTP. -/

/-- goSplitN2 in constructor form: there is always a first part. -/
theorem goSplitN2_cons (s sep : String) : ∃ d r, goSplitN2 s sep = d :: r := by
  unfold goSplitN2
  cases strIndexOf s sep with
  | none => exact ⟨_, _, rfl⟩
  | some i => exact ⟨_, _, rfl⟩

/-- Character-list view of the slash-domain-slash-rest path. -/
theorem slashPath_toList (domain rest : String) :
    ("/" ++ domain ++ "/" ++ rest).toList = '/' :: (domain.toList ++ '/' :: rest.toList) := by
  show ((("/" ++ domain) ++ "/") ++ rest).data = '/' :: (domain.data ++ '/' :: rest.data)
  simp [String.data_append]

/-- Reassociation of the slash-domain-slash-rest path. -/
theorem slashPath_assoc (domain rest : String) :
    ("/" ++ domain ++ "/" ++ rest) = "/" ++ (domain ++ "/" ++ rest) := by
  simp [String.append_assoc]

/-- A slash-domain-slash-rest path is neither the root path nor empty. -/
theorem slashPath_ne (domain rest : String) :
    ¬("/" ++ (domain ++ "/" ++ rest) = "/" ∨ "/" ++ (domain ++ "/" ++ rest) = "") := by
  rintro (h | h) <;> {
    have h2 := congrArg String.toList h
    rw [show ("/" ++ (domain ++ "/" ++ rest)).toList =
        '/' :: (domain.toList ++ '/' :: rest.toList) from by
      have := slashPath_toList domain rest
      rwa [slashPath_assoc] at this] at h2
    simp [String.toList] at h2
  }

/-- DirectHandler.ServeHTTP on a path of shape slash, slash-free domain,
slash, rest: validation passes and the handler forwards to the HTTPS
reassembly of domain, remaining path and query. -/
theorem directServe_slash_domain {upstream : Upstream}
    {baseURL method domain rest rawQuery : String} (hd : '/' ∉ domain.toList) :
    directServeHTTP upstream baseURL method ("/" ++ domain ++ "/" ++ rest) rawQuery =
      forwardToFlareSolverr upstream baseURL
        ("https://" ++ domain ++
          (if rawQuery ≠ "" then ("/" ++ rest) ++ "?" ++ rawQuery else "/" ++ rest))
        (cmdForMethod method) := by
  rw [slashPath_assoc]
  unfold directServeHTTP
  rw [if_neg (slashPath_ne domain rest)]
  simp only [goStartsWith_slash, if_true, stringDrop_slash, goSplitN2_domain domain rest hd]

/-- DirectHandler.ServeHTTP coincides everywhere with the variant whose
guarded second 400 branch is replaced by an arbitrary sentinel: that
branch is unreachable. -/
theorem directServe_eq_guardFree (upstream : Upstream)
    (baseURL method path rawQuery : String) :
    directServeHTTP upstream baseURL method path rawQuery =
      directServeGuardFree upstream baseURL method path rawQuery := by
  unfold directServeHTTP directServeGuardFree
  by_cases h : path = "/" ∨ path = ""
  · rw [if_pos h, if_pos h]
  · rw [if_neg h, if_neg h]
    obtain ⟨d, r, hsp⟩ :=
      goSplitN2_cons (if goStartsWith path "/" then stringDrop path 1 else path) "/"
    simp only [hsp]

/-! Concrete upstream oracles used for closed counterexamples and
witnesses. -/

/-- A well-formed ok reply body with a fixed solved page and a non-200
numeric solution status. -/
def okBody : JsonFlareBody :=
  { solution := some { response := some "<html>solved</html>", status := some 404, userAgent := some "UA" },
    status := some "ok",
    message := some "" }

/-- An upstream that always replies ok with a fixed solved page. -/
def upstreamAlwaysOk : Upstream := fun _ => .jsonBody okBody

/-- An upstream that always replies with the empty JSON object: well
formed, but missing every field. -/
def upstreamEmptyJson : Upstream := fun _ => .jsonBody { solution := none, status := none, message := none }

/-- An upstream that always reports a failure status with message X. -/
def upstreamAlwaysFail : Upstream := fun _ =>
  .jsonBody { solution := none, status := some "error", message := some "X" }

/-- The first upstream call of a direct-mode forward, in head? form. -/
theorem forward_calls_headOpt {upstream : Upstream} {baseURL targetURL cmd : String} :
    (forwardToFlareSolverr upstream baseURL targetURL cmd).2.head? =
      some (mkOutbound baseURL ⟨cmd, targetURL, 60000⟩) := by
  obtain ⟨more, hm⟩ := @forward_calls_head upstream baseURL targetURL cmd
  rw [hm]
  rfl

/-- Every upstream call issued by a direct-mode forward is a POST to the
configured base URL with JSON content type and the fixed 60000 timeout. -/
theorem forward_calls_shape {upstream : Upstream} {baseURL targetURL cmd : String} :
    ∀ r ∈ (forwardToFlareSolverr upstream baseURL targetURL cmd).2,
      r.method = "POST" ∧ r.url = baseURL ∧ r.contentType = "application/json" ∧
        r.body.maxTimeout = 60000 := by
  by_cases hnf : ∃ j, upstream (mkOutbound baseURL ⟨cmd, targetURL, 60000⟩) = .jsonBody j ∧
      (decodeFlare j).status ≠ "ok" ∧ goStartsWith targetURL "https://" = true
  · obtain ⟨j, hrep, hs, hp⟩ := hnf
    rw [forward_calls_fallback hrep hs hp]
    intro r hr
    simp only [List.mem_cons, List.not_mem_nil, or_false] at hr
    rcases hr with h | h <;> (subst h; exact ⟨rfl, rfl, rfl, rfl⟩)
  · rw [forward_calls_noFallback hnf]
    intro r hr
    rw [List.mem_singleton] at hr
    subst hr
    exact ⟨rfl, rfl, rfl, rfl⟩

/-! The claims. -/

/-- C10: The Direct Router's second Invalid URL format branch is
unreachable: splitting the de-slashed path always yields at least one
part, so DirectHandler.ServeHTTP coincides with the variant whose guarded
400 branch is replaced by an arbitrary sentinel response. -/
theorem c10_guarded_branch_unreachable :
    (∀ s sep : String, ∃ d r, goSplitN2 s sep = d :: r) ∧
    (∀ (upstream : Upstream) (baseURL method path rawQuery : String),
      directServeHTTP upstream baseURL method path rawQuery =
        directServeGuardFree upstream baseURL method path rawQuery) :=
  ⟨goSplitN2_cons, directServe_eq_guardFree⟩

/-- C9: Direct-mode validation rejects only the exact paths slash and
empty.  Every other path passes validation: the domain extracted is the
(possibly empty) first part of the de-slashed path split at the first
slash, and an upstream call is made with the reassembled HTTPS target
URL, query appended after the remaining path. -/
theorem c9_only_root_or_empty_rejected (upstream : Upstream)
    (baseURL method path rawQuery : String) (h1 : path ≠ "/") (h2 : path ≠ "") :
    ∃ domain restParts,
      goSplitN2 (if goStartsWith path "/" then stringDrop path 1 else path) "/" =
          domain :: restParts ∧
      (directServeHTTP upstream baseURL method path rawQuery).2.head? =
        some (mkOutbound baseURL
          ⟨cmdForMethod method,
            "https://" ++ domain ++
              (if rawQuery ≠ ""
                then (match restParts with | [] => "" | r :: _ => "/" ++ r) ++ "?" ++ rawQuery
                else match restParts with | [] => "" | r :: _ => "/" ++ r),
            60000⟩) := by
  have hne : ¬(path = "/" ∨ path = "") := by
    rintro (h | h)
    · exact h1 h
    · exact h2 h
  obtain ⟨d, r, hsp⟩ :=
    goSplitN2_cons (if goStartsWith path "/" then stringDrop path 1 else path) "/"
  refine ⟨d, r, hsp, ?_⟩
  unfold directServeHTTP
  rw [if_neg hne]
  simp only [hsp]
  exact forward_calls_headOpt

/-- C9 witness: the path with an empty first segment is not rejected; it
produces the upstream target URL with an empty authority instead of a 400
response. -/
theorem c9_witness :
    (∃ domain restParts,
      goSplitN2 (if goStartsWith "//example.com/x" "/"
          then stringDrop "//example.com/x" 1 else "//example.com/x") "/" =
          domain :: restParts ∧
      (directServeHTTP upstreamAlwaysOk "http://flaresolverr:8191/v1" "GET"
          "//example.com/x" "").2.head? =
        some (mkOutbound "http://flaresolverr:8191/v1"
          ⟨cmdForMethod "GET",
            "https://" ++ domain ++
              (if ("" : String) ≠ ""
                then (match restParts with | [] => "" | r :: _ => "/" ++ r) ++ "?" ++ ""
                else match restParts with | [] => "" | r :: _ => "/" ++ r),
            60000⟩)) ∧
    (directServeHTTP upstreamAlwaysOk "http://flaresolverr:8191/v1" "GET"
        "//example.com/x" "").2.map (fun rq => rq.body.url) = ["https:///example.com/x"] ∧
    (directServeHTTP upstreamAlwaysOk "http://flaresolverr:8191/v1" "GET"
        "//example.com/x" "").1.status = 200 := by
  refine ⟨c9_only_root_or_empty_rejected upstreamAlwaysOk "http://flaresolverr:8191/v1"
    "GET" "//example.com/x" "" (by decide) (by decide), ?_, ?_⟩ <;> {
    rw [show directServeHTTP upstreamAlwaysOk "http://flaresolverr:8191/v1" "GET"
        "//example.com/x" "" =
      forwardToFlareSolverr upstreamAlwaysOk "http://flaresolverr:8191/v1"
        "https:///example.com/x" "request.get" from rfl]
    rw [@forward_ok upstreamAlwaysOk "http://flaresolverr:8191/v1" "https:///example.com/x"
      "request.get" okBody rfl (by decide)]
    try rfl
  }

/-- C6: In proxy mode, a GET issues exactly one upstream call whose target
URL is the inbound URL with the first occurrence of the plain HTTP scheme
replaced by HTTPS, under the fixed request.get command; when the URL
starts with the plain HTTP scheme this rewrites exactly the scheme; and no
proxy-mode request ever issues more than one upstream call. -/
theorem c6_proxy_get_rewrite_single_call (upstream : Upstream)
    (baseURL method urlStr : String) :
    (proxyServeHTTP upstream baseURL "GET" urlStr).2 =
        [mkOutbound baseURL ⟨"request.get", goReplace1 urlStr "http://" "https://", 60000⟩] ∧
    (goStartsWith urlStr "http://" = true →
      goReplace1 urlStr "http://" "https://" = "https://" ++ stringDrop urlStr 7) ∧
    (proxyServeHTTP upstream baseURL method urlStr).2.length ≤ 1 := by
  refine ⟨?_, ?_, ?_⟩
  · show (proxyHandleRequest upstream baseURL urlStr).2 = _
    exact proxy_calls_single
  · intro h
    obtain ⟨t, ht⟩ := goStartsWith_iff.mp h
    rw [goReplace1_of_startsWith "https://" ht.symm]
    have hdrop : stringDrop urlStr 7 = String.mk t := by
      unfold stringDrop
      rw [show urlStr.toList = "http://".toList ++ t from ht.symm]
      rw [List.drop_left' (by rfl)]
    rw [hdrop]
    rfl
  · by_cases hg : method = "GET"
    · subst hg
      show ((proxyHandleRequest upstream baseURL urlStr).2.length ≤ 1)
      rw [proxy_calls_single]
      simp
    · unfold proxyServeHTTP
      rw [if_neg hg]
      by_cases hc : method = "CONNECT"
      · rw [if_pos hc]
        simp
      · rw [if_neg hc]
        simp

/-- C6 witness: the rewrite on a concrete http URL. -/
theorem c6_witness :
    goStartsWith "http://example.com/a" "http://" = true ∧
    goReplace1 "http://example.com/a" "http://" "https://" =
      "https://" ++ stringDrop "http://example.com/a" 7 ∧
    (proxyServeHTTP upstreamAlwaysOk "http://flaresolverr:8191/v1" "GET"
        "http://example.com/a").2 =
      [mkOutbound "http://flaresolverr:8191/v1"
        ⟨"request.get", goReplace1 "http://example.com/a" "http://" "https://", 60000⟩] := by
  have h := c6_proxy_get_rewrite_single_call upstreamAlwaysOk "http://flaresolverr:8191/v1"
    "POST" "http://example.com/a"
  exact ⟨by decide, h.2.1 (by decide), h.1⟩

/-- C5: A direct-mode request for path slash-domain-slash-rest with
optional query issues as its first upstream call an HTTP POST to the
configured base URL, Content-Type application/json, whose command envelope
carries the method-selected cmd, the target URL reassembled as the HTTPS
scheme, domain, remaining path and query appended after it, and the fixed
60000 timeout; every issued call is such a POST, and on an ok reply the
call is unique. -/
theorem c5_direct_upstream_post_shape (upstream : Upstream)
    (baseURL method domain rest rawQuery : String) (hd : '/' ∉ domain.toList) :
    (directServeHTTP upstream baseURL method ("/" ++ domain ++ "/" ++ rest) rawQuery).2.head? =
        some (mkOutbound baseURL
          ⟨cmdForMethod method,
            (if rawQuery ≠ "" then "https://" ++ domain ++ "/" ++ rest ++ "?" ++ rawQuery
              else "https://" ++ domain ++ "/" ++ rest),
            60000⟩) ∧
    (∀ r ∈ (directServeHTTP upstream baseURL method ("/" ++ domain ++ "/" ++ rest) rawQuery).2,
      r.method = "POST" ∧ r.url = baseURL ∧ r.contentType = "application/json" ∧
        r.body.maxTimeout = 60000) ∧
    ∀ j, upstream (mkOutbound baseURL
          ⟨cmdForMethod method,
            (if rawQuery ≠ "" then "https://" ++ domain ++ "/" ++ rest ++ "?" ++ rawQuery
              else "https://" ++ domain ++ "/" ++ rest),
            60000⟩) = .jsonBody j →
      (decodeFlare j).status = "ok" →
      (directServeHTTP upstream baseURL method ("/" ++ domain ++ "/" ++ rest) rawQuery).2 =
        [mkOutbound baseURL
          ⟨cmdForMethod method,
            (if rawQuery ≠ "" then "https://" ++ domain ++ "/" ++ rest ++ "?" ++ rawQuery
              else "https://" ++ domain ++ "/" ++ rest),
            60000⟩] := by
  have hurl : ("https://" ++ domain ++
      (if rawQuery ≠ "" then ("/" ++ rest) ++ "?" ++ rawQuery else "/" ++ rest)) =
      (if rawQuery ≠ "" then "https://" ++ domain ++ "/" ++ rest ++ "?" ++ rawQuery
        else "https://" ++ domain ++ "/" ++ rest) := by
    by_cases hq : rawQuery = "" <;> simp [hq, String.append_assoc]
  rw [directServe_slash_domain hd, hurl]
  refine ⟨forward_calls_headOpt, forward_calls_shape, ?_⟩
  intro j hj hs
  refine forward_calls_noFallback ?_
  rintro ⟨j2, hj2, hs2, hp2⟩
  rw [hj] at hj2
  injection hj2 with he
  subst he
  exact hs2 hs

/-- C5 witness: a concrete direct-mode request with a query string. -/
theorem c5_witness :
    (directServeHTTP upstreamAlwaysOk "http://flaresolverr:8191/v1" "GET"
        ("/" ++ "example.com" ++ "/" ++ "a/b") "q=1").2.head? =
      some (mkOutbound "http://flaresolverr:8191/v1"
        ⟨"request.get", "https://example.com/a/b?q=1", 60000⟩) ∧
    (directServeHTTP upstreamAlwaysOk "http://flaresolverr:8191/v1" "GET"
        ("/" ++ "example.com" ++ "/" ++ "a/b") "q=1").2 =
      [mkOutbound "http://flaresolverr:8191/v1"
        ⟨"request.get", "https://example.com/a/b?q=1", 60000⟩] := by
  have h := c5_direct_upstream_post_shape upstreamAlwaysOk "http://flaresolverr:8191/v1"
    "GET" "example.com" "a/b" "q=1" (by decide)
  constructor
  · rw [h.1]
    rfl
  · rw [h.2.2 okBody rfl (by decide)]
    rfl

/-- C1: In either mode, when the upstream returns a well-formed JSON body
whose status field equals ok, the client receives HTTP 200, Content-Type
exactly text/html; charset=utf-8, and a body exactly the upstream's
solution.response string, regardless of the numeric solution.status
value (j.solution is arbitrary here). -/
theorem c1_ok_upstream_served_as_html (upstream : Upstream)
    (baseURL urlStr targetURL cmd : String) (j : JsonFlareBody) :
    (upstream (mkOutbound baseURL
          ⟨"request.get", goReplace1 urlStr "http://" "https://", 60000⟩) = .jsonBody j →
      j.status = some "ok" →
      proxyHandleRequest upstream baseURL urlStr =
        ({ status := 200, contentType := "text/html; charset=utf-8",
            body := .raw (decodeFlare j).solution.response },
          [mkOutbound baseURL ⟨"request.get", goReplace1 urlStr "http://" "https://", 60000⟩])) ∧
    (upstream (mkOutbound baseURL ⟨cmd, targetURL, 60000⟩) = .jsonBody j →
      j.status = some "ok" →
      forwardToFlareSolverr upstream baseURL targetURL cmd =
        ({ status := 200, contentType := "text/html; charset=utf-8",
            body := .raw (decodeFlare j).solution.response },
          [mkOutbound baseURL ⟨cmd, targetURL, 60000⟩])) := by
  constructor
  · intro h hok
    have hs : (decodeFlare j).status = "ok" := by simp [decodeFlare, hok]
    exact proxy_ok h hs
  · intro h hok
    have hs : (decodeFlare j).status = "ok" := by simp [decodeFlare, hok]
    exact forward_ok h hs

/-- C1 witness: a concrete ok reply whose numeric solution.status is 404
still yields client status 200 with the solved page, in both modes. -/
theorem c1_witness :
    proxyHandleRequest upstreamAlwaysOk "http://flaresolverr:8191/v1" "http://example.com" =
      ({ status := 200, contentType := "text/html; charset=utf-8",
          body := .raw "<html>solved</html>" },
        [mkOutbound "http://flaresolverr:8191/v1"
          ⟨"request.get", "https://example.com", 60000⟩]) ∧
    forwardToFlareSolverr upstreamAlwaysOk "http://flaresolverr:8191/v1"
        "https://example.com" "request.get" =
      ({ status := 200, contentType := "text/html; charset=utf-8",
          body := .raw "<html>solved</html>" },
        [mkOutbound "http://flaresolverr:8191/v1"
          ⟨"request.get", "https://example.com", 60000⟩]) := by
  have h := c1_ok_upstream_served_as_html upstreamAlwaysOk "http://flaresolverr:8191/v1"
    "http://example.com" "https://example.com" "request.get" okBody
  constructor
  · rw [h.1 rfl rfl]
    rfl
  · rw [h.2 rfl rfl]
    rfl

/-- C2: In the Direct Router, a second upstream call occurs exactly when
the first attempt yields a well-formed reply with non-ok status and the
attempted URL starts with the HTTPS scheme; the retry replaces the scheme
by HTTP and keeps path, query and command; the overall response is the
second attempt's response, which issues no further call, and a second
reported failure is surfaced to the client; there are never more than two
upstream calls, and transport or malformed-body errors never trigger the
fallback (the iff admits only a well-formed non-ok first reply). -/
theorem c2_fallback_exactly_once (upstream : Upstream) (baseURL targetURL cmd : String) :
    ((forwardToFlareSolverr upstream baseURL targetURL cmd).2.length = 2 ↔
      ∃ j, upstream (mkOutbound baseURL ⟨cmd, targetURL, 60000⟩) = .jsonBody j ∧
        (decodeFlare j).status ≠ "ok" ∧ goStartsWith targetURL "https://" = true) ∧
    (forwardToFlareSolverr upstream baseURL targetURL cmd).2.length ≤ 2 ∧
    ∀ j, upstream (mkOutbound baseURL ⟨cmd, targetURL, 60000⟩) = .jsonBody j →
      (decodeFlare j).status ≠ "ok" → goStartsWith targetURL "https://" = true →
      ((forwardToFlareSolverr upstream baseURL targetURL cmd).2 =
          [mkOutbound baseURL ⟨cmd, targetURL, 60000⟩,
            mkOutbound baseURL ⟨cmd, goReplace1 targetURL "https://" "http://", 60000⟩] ∧
        (forwardToFlareSolverr upstream baseURL targetURL cmd).1 =
          (forwardToFlareSolverr upstream baseURL
            (goReplace1 targetURL "https://" "http://") cmd).1 ∧
        (forwardToFlareSolverr upstream baseURL
            (goReplace1 targetURL "https://" "http://") cmd).2 =
          [mkOutbound baseURL ⟨cmd, goReplace1 targetURL "https://" "http://", 60000⟩] ∧
        ∀ j2, upstream (mkOutbound baseURL
            ⟨cmd, goReplace1 targetURL "https://" "http://", 60000⟩) = .jsonBody j2 →
          (decodeFlare j2).status ≠ "ok" →
          (forwardToFlareSolverr upstream baseURL targetURL cmd).1 =
            sendError ("FlareSolverr error: " ++ (decodeFlare j2).message)) := by
  refine ⟨⟨?_, ?_⟩, forward_calls_le_two, ?_⟩
  · intro h2
    by_cases hnf : ∃ j, upstream (mkOutbound baseURL ⟨cmd, targetURL, 60000⟩) = .jsonBody j ∧
        (decodeFlare j).status ≠ "ok" ∧ goStartsWith targetURL "https://" = true
    · exact hnf
    · rw [forward_calls_noFallback hnf] at h2
      simp at h2
  · rintro ⟨j, hj, hs, hp⟩
    rw [forward_calls_fallback hj hs hp]
    rfl
  · intro j hj hs hp
    have hfall := forward_nonOk_https hj hs hp
    have hp2 := goStartsWith_replace_https hp
    refine ⟨forward_calls_fallback hj hs hp, ?_, forward_calls_notHttps hp2, ?_⟩
    · rw [hfall]
    · intro j2 hj2 hs2
      rw [hfall, forward_nonOk_notHttps hj2 hs2 hp2]

/-- C2 witness: a concrete always-failing upstream produces exactly the
HTTPS attempt, the HTTP retry, and the second failure surfaced. -/
theorem c2_witness :
    (forwardToFlareSolverr upstreamAlwaysFail "http://flaresolverr:8191/v1"
        "https://example.com/a" "request.get").2 =
      [mkOutbound "http://flaresolverr:8191/v1"
          ⟨"request.get", "https://example.com/a", 60000⟩,
        mkOutbound "http://flaresolverr:8191/v1"
          ⟨"request.get", "http://example.com/a", 60000⟩] ∧
    (forwardToFlareSolverr upstreamAlwaysFail "http://flaresolverr:8191/v1"
        "https://example.com/a" "request.get").1 = sendError "FlareSolverr error: X" := by
  have h := (c2_fallback_exactly_once upstreamAlwaysFail "http://flaresolverr:8191/v1"
    "https://example.com/a" "request.get").2.2
    { solution := none, status := some "error", message := some "X" } rfl
    (by decide) (by decide)
  constructor
  · rw [h.1]
    rfl
  · rw [h.2.2.2 { solution := none, status := some "error", message := some "X" } rfl (by decide)]
    rfl

/-- An upstream whose reply body is not JSON at all. -/
def upstreamMalformed : Upstream := fun _ => .malformedBody "invalid character p"

/-- C3 counterexample: a direct-mode GET issues the request.get command
while a direct-mode POST issues request.post, so the command name is not
the same fixed fetch verb for both methods. -/
theorem c3_counterexample_distinct_commands :
    (directServeHTTP upstreamAlwaysOk "http://flaresolverr:8191/v1" "GET"
        "/example.com/a" "").2.map (fun r => r.body.cmd) = ["request.get"] ∧
    (directServeHTTP upstreamAlwaysOk "http://flaresolverr:8191/v1" "POST"
        "/example.com/a" "").2.map (fun r => r.body.cmd) = ["request.post"] ∧
    ("request.get" : String) ≠ "request.post" := by
  refine ⟨?_, ?_, by decide⟩
  · rw [show directServeHTTP upstreamAlwaysOk "http://flaresolverr:8191/v1" "GET"
        "/example.com/a" "" =
      forwardToFlareSolverr upstreamAlwaysOk "http://flaresolverr:8191/v1"
        "https://example.com/a" "request.get" from rfl]
    rw [@forward_ok upstreamAlwaysOk "http://flaresolverr:8191/v1" "https://example.com/a"
      "request.get" okBody rfl (by decide)]
    rfl
  · rw [show directServeHTTP upstreamAlwaysOk "http://flaresolverr:8191/v1" "POST"
        "/example.com/a" "" =
      forwardToFlareSolverr upstreamAlwaysOk "http://flaresolverr:8191/v1"
        "https://example.com/a" "request.post" from rfl]
    rw [@forward_ok upstreamAlwaysOk "http://flaresolverr:8191/v1" "https://example.com/a"
      "request.post" okBody rfl (by decide)]
    rfl

/-- C3 amended: the direct router maps GET to request.get, POST to the
distinct request.post, and every other method to request.get; every
upstream call it issues carries exactly the command selected from the
inbound method. -/
theorem c3_amended_command_per_method (upstream : Upstream)
    (baseURL method path rawQuery : String) :
    cmdForMethod "GET" = "request.get" ∧ cmdForMethod "POST" = "request.post" ∧
    (∀ m, m ≠ "GET" → m ≠ "POST" → cmdForMethod m = "request.get") ∧
    ∀ r ∈ (directServeHTTP upstream baseURL method path rawQuery).2,
      r.body.cmd = cmdForMethod method := by
  refine ⟨rfl, rfl, ?_, ?_⟩
  · intro m hm1 hm2
    unfold cmdForMethod
    rw [if_neg hm1, if_neg hm2]
  · by_cases h : path = "/" ∨ path = ""
    · unfold directServeHTTP
      rw [if_pos h]
      intro r hr
      simp at hr
    · obtain ⟨d, rr, hsp⟩ :=
        goSplitN2_cons (if goStartsWith path "/" then stringDrop path 1 else path) "/"
      unfold directServeHTTP
      rw [if_neg h]
      simp only [hsp]
      exact forward_calls_cmd

/-- C3 amended witness: a PUT falls back to request.get, and the call a
concrete POST request issues carries request.post. -/
theorem c3_amended_witness :
    cmdForMethod "PUT" = "request.get" ∧
    (mkOutbound "http://flaresolverr:8191/v1"
        ⟨"request.post", "https://example.com/a", 60000⟩).body.cmd = cmdForMethod "POST" := by
  have h := c3_amended_command_per_method upstreamAlwaysOk "http://flaresolverr:8191/v1"
    "POST" "/example.com/a" ""
  have hmem : mkOutbound "http://flaresolverr:8191/v1"
      ⟨"request.post", "https://example.com/a", 60000⟩ ∈
      (directServeHTTP upstreamAlwaysOk "http://flaresolverr:8191/v1" "POST"
        "/example.com/a" "").2 := by
    rw [show directServeHTTP upstreamAlwaysOk "http://flaresolverr:8191/v1" "POST"
        "/example.com/a" "" =
      forwardToFlareSolverr upstreamAlwaysOk "http://flaresolverr:8191/v1"
        "https://example.com/a" "request.post" from rfl]
    rw [@forward_ok upstreamAlwaysOk "http://flaresolverr:8191/v1" "https://example.com/a"
      "request.post" okBody rfl (by decide)]
    exact List.mem_singleton.mpr rfl
  exact ⟨h.2.2.1 "PUT" (by decide) (by decide), h.2.2.2 _ hmem⟩

/-- C4 counterexample: the empty JSON object is well-formed JSON missing
every required field, yet the direct handler treats it as a non-ok reply:
it does trigger the HTTPS to HTTP fallback (two upstream calls) and
reports a FlareSolverr error, not a parse error. -/
theorem c4_counterexample_missing_fields_fallback :
    (directServeHTTP upstreamEmptyJson "http://flaresolverr:8191/v1" "GET"
        "/example.com/a" "").2.length = 2 ∧
    (directServeHTTP upstreamEmptyJson "http://flaresolverr:8191/v1" "GET"
        "/example.com/a" "").1 = sendError "FlareSolverr error: " := by
  constructor
  · rw [show directServeHTTP upstreamEmptyJson "http://flaresolverr:8191/v1" "GET"
        "/example.com/a" "" =
      forwardToFlareSolverr upstreamEmptyJson "http://flaresolverr:8191/v1"
        "https://example.com/a" "request.get" from rfl]
    rw [@forward_calls_fallback upstreamEmptyJson "http://flaresolverr:8191/v1"
      "https://example.com/a" "request.get"
      { solution := none, status := none, message := none } rfl (by decide) (by decide)]
    rfl
  · rw [show directServeHTTP upstreamEmptyJson "http://flaresolverr:8191/v1" "GET"
        "/example.com/a" "" =
      forwardToFlareSolverr upstreamEmptyJson "http://flaresolverr:8191/v1"
        "https://example.com/a" "request.get" from rfl]
    rw [@forward_nonOk_https upstreamEmptyJson "http://flaresolverr:8191/v1"
      "https://example.com/a" "request.get"
      { solution := none, status := none, message := none } rfl (by decide) (by decide)]
    rw [show goReplace1 "https://example.com/a" "https://" "http://" =
        "http://example.com/a" from by decide]
    rw [@forward_nonOk_notHttps upstreamEmptyJson "http://flaresolverr:8191/v1"
      "http://example.com/a" "request.get"
      { solution := none, status := none, message := none } rfl (by decide) (by decide)]
    rfl

/-- C4 amended: only a body that fails JSON decoding is a response-shape
error: it is reported as the 500 parse-error JSON object with no fallback,
in both modes.  A well-formed body with a missing status field decodes to
zero values, counts as an upstream-reported failure, and in the Direct
Router does trigger the HTTPS to HTTP fallback. -/
theorem c4_amended_malformed_vs_missing_field (upstream : Upstream)
    (baseURL urlStr targetURL cmd cause : String) (j : JsonFlareBody) :
    (upstream (mkOutbound baseURL ⟨cmd, targetURL, 60000⟩) = .malformedBody cause →
      forwardToFlareSolverr upstream baseURL targetURL cmd =
        (sendError ("Failed to parse response: " ++ cause),
          [mkOutbound baseURL ⟨cmd, targetURL, 60000⟩])) ∧
    (upstream (mkOutbound baseURL
          ⟨"request.get", goReplace1 urlStr "http://" "https://", 60000⟩) =
        .malformedBody cause →
      proxyHandleRequest upstream baseURL urlStr =
        (sendError ("Failed to parse response: " ++ cause),
          [mkOutbound baseURL ⟨"request.get", goReplace1 urlStr "http://" "https://", 60000⟩])) ∧
    (upstream (mkOutbound baseURL ⟨cmd, targetURL, 60000⟩) = .jsonBody j →
      j.status = none → goStartsWith targetURL "https://" = true →
      (forwardToFlareSolverr upstream baseURL targetURL cmd).2.length = 2) := by
  refine ⟨forward_malformedBody, proxy_malformedBody, ?_⟩
  intro hj hstat hp
  have hs : (decodeFlare j).status ≠ "ok" := by
    show j.status.getD "" ≠ "ok"
    rw [hstat]
    decide
  rw [forward_calls_fallback hj hs hp]
  rfl

/-- C4 amended witness: a malformed body at a concrete request gives the
parse error with one call; the empty JSON object gives two calls. -/
theorem c4_amended_witness :
    forwardToFlareSolverr upstreamMalformed "http://flaresolverr:8191/v1"
        "https://example.com/a" "request.get" =
      (sendError "Failed to parse response: invalid character p",
        [mkOutbound "http://flaresolverr:8191/v1"
          ⟨"request.get", "https://example.com/a", 60000⟩]) ∧
    (forwardToFlareSolverr upstreamEmptyJson "http://flaresolverr:8191/v1"
        "https://example.com/a" "request.get").2.length = 2 := by
  constructor
  · rw [(c4_amended_malformed_vs_missing_field upstreamMalformed "http://flaresolverr:8191/v1"
      "http://x" "https://example.com/a" "request.get" "invalid character p" okBody).1 rfl]
    rfl
  · exact (c4_amended_malformed_vs_missing_field upstreamEmptyJson "http://flaresolverr:8191/v1"
      "http://x" "https://example.com/a" "request.get" "c"
      { solution := none, status := none, message := none }).2.2 rfl rfl (by decide)

/-- An upstream that is unreachable at the transport level. -/
def upstreamTransport : Upstream := fun _ => .transportError "connection refused"

/-- An upstream whose reply body cannot be read. -/
def upstreamReadErr : Upstream := fun _ => .readError "unexpected EOF"

/-- C7: every upstream-side failure — transport error, unreadable body,
non-JSON body, or a well-formed reply with non-ok status — yields, in
either mode, HTTP 500 with Content-Type application/json and a JSON object
with a single error field carrying the cause text; for an upstream-reported
failure the error message is the fixed FlareSolverr error label followed by
the upstream's message field verbatim.  All four kinds are pinned for the
proxy handler and for the direct forward (the non-ok case at its terminal
attempt), and in either mode every response is the 200 HTML success or
such a 500 JSON error. -/
theorem c7_failures_surface_as_json_500 (upstream : Upstream)
    (baseURL urlStr targetURL cmd : String) :
    (((proxyHandleRequest upstream baseURL urlStr).1.status = 200 ∧
        (proxyHandleRequest upstream baseURL urlStr).1.contentType =
          "text/html; charset=utf-8" ∧
        ∃ s, (proxyHandleRequest upstream baseURL urlStr).1.body = .raw s) ∨
      ∃ m, (proxyHandleRequest upstream baseURL urlStr).1 = sendError m) ∧
    (((forwardToFlareSolverr upstream baseURL targetURL cmd).1.status = 200 ∧
        (forwardToFlareSolverr upstream baseURL targetURL cmd).1.contentType =
          "text/html; charset=utf-8" ∧
        ∃ s, (forwardToFlareSolverr upstream baseURL targetURL cmd).1.body = .raw s) ∨
      ∃ m, (forwardToFlareSolverr upstream baseURL targetURL cmd).1 = sendError m) ∧
    (∀ cause, upstream (mkOutbound baseURL
          ⟨"request.get", goReplace1 urlStr "http://" "https://", 60000⟩) =
        .transportError cause →
      (proxyHandleRequest upstream baseURL urlStr).1 =
        sendError ("Failed to connect to FlareSolverr: " ++ cause)) ∧
    (∀ cause, upstream (mkOutbound baseURL
          ⟨"request.get", goReplace1 urlStr "http://" "https://", 60000⟩) =
        .readError cause →
      (proxyHandleRequest upstream baseURL urlStr).1 =
        sendError ("Failed to read response: " ++ cause)) ∧
    (∀ cause, upstream (mkOutbound baseURL
          ⟨"request.get", goReplace1 urlStr "http://" "https://", 60000⟩) =
        .malformedBody cause →
      (proxyHandleRequest upstream baseURL urlStr).1 =
        sendError ("Failed to parse response: " ++ cause)) ∧
    (∀ j, upstream (mkOutbound baseURL
          ⟨"request.get", goReplace1 urlStr "http://" "https://", 60000⟩) = .jsonBody j →
      (decodeFlare j).status ≠ "ok" →
      (proxyHandleRequest upstream baseURL urlStr).1 =
        sendError ("FlareSolverr error: " ++ (decodeFlare j).message)) ∧
    (∀ cause, upstream (mkOutbound baseURL ⟨cmd, targetURL, 60000⟩) = .transportError cause →
      forwardToFlareSolverr upstream baseURL targetURL cmd =
        (sendError ("Failed to connect to FlareSolverr: " ++ cause),
          [mkOutbound baseURL ⟨cmd, targetURL, 60000⟩])) ∧
    (∀ cause, upstream (mkOutbound baseURL ⟨cmd, targetURL, 60000⟩) = .readError cause →
      forwardToFlareSolverr upstream baseURL targetURL cmd =
        (sendError ("Failed to read response: " ++ cause),
          [mkOutbound baseURL ⟨cmd, targetURL, 60000⟩])) ∧
    (∀ cause, upstream (mkOutbound baseURL ⟨cmd, targetURL, 60000⟩) = .malformedBody cause →
      forwardToFlareSolverr upstream baseURL targetURL cmd =
        (sendError ("Failed to parse response: " ++ cause),
          [mkOutbound baseURL ⟨cmd, targetURL, 60000⟩])) ∧
    (∀ j, upstream (mkOutbound baseURL ⟨cmd, targetURL, 60000⟩) = .jsonBody j →
      (decodeFlare j).status ≠ "ok" → goStartsWith targetURL "https://" = false →
      (forwardToFlareSolverr upstream baseURL targetURL cmd).1 =
        sendError ("FlareSolverr error: " ++ (decodeFlare j).message)) := by
  refine ⟨?_, forward_shape, ?_, ?_, ?_, ?_, ?_, ?_, ?_, ?_⟩
  · cases hrep : upstream (mkOutbound baseURL
        ⟨"request.get", goReplace1 urlStr "http://" "https://", 60000⟩) with
    | transportError c => rw [proxy_transportError hrep]; exact Or.inr ⟨_, rfl⟩
    | readError c => rw [proxy_readError hrep]; exact Or.inr ⟨_, rfl⟩
    | malformedBody c => rw [proxy_malformedBody hrep]; exact Or.inr ⟨_, rfl⟩
    | jsonBody j =>
      by_cases hs : (decodeFlare j).status = "ok"
      · rw [proxy_ok hrep hs]; exact Or.inl ⟨rfl, rfl, _, rfl⟩
      · rw [proxy_nonOk hrep hs]; exact Or.inr ⟨_, rfl⟩
  · intro cause hc
    rw [proxy_transportError hc]
  · intro cause hc
    rw [proxy_readError hc]
  · intro cause hc
    rw [proxy_malformedBody hc]
  · intro j hj hs
    rw [proxy_nonOk hj hs]
  · intro cause hc
    exact forward_transportError hc
  · intro cause hc
    exact forward_readError hc
  · intro cause hc
    exact forward_malformedBody hc
  · intro j hj hs hp
    rw [forward_nonOk_notHttps hj hs hp]

/-- C7 witness: a concrete upstream-reported failure in proxy mode, and
concrete transport, read and malformed-body failures in direct mode. -/
theorem c7_witness :
    (proxyHandleRequest upstreamAlwaysFail "http://flaresolverr:8191/v1"
        "http://example.com").1 = sendError "FlareSolverr error: X" ∧
    forwardToFlareSolverr upstreamTransport "http://flaresolverr:8191/v1"
        "http://example.com/a" "request.get" =
      (sendError "Failed to connect to FlareSolverr: connection refused",
        [mkOutbound "http://flaresolverr:8191/v1"
          ⟨"request.get", "http://example.com/a", 60000⟩]) ∧
    forwardToFlareSolverr upstreamReadErr "http://flaresolverr:8191/v1"
        "https://example.org/b" "request.get" =
      (sendError "Failed to read response: unexpected EOF",
        [mkOutbound "http://flaresolverr:8191/v1"
          ⟨"request.get", "https://example.org/b", 60000⟩]) ∧
    forwardToFlareSolverr upstreamMalformed "http://flaresolverr:8191/v1"
        "https://example.org/c" "request.post" =
      (sendError "Failed to parse response: invalid character p",
        [mkOutbound "http://flaresolverr:8191/v1"
          ⟨"request.post", "https://example.org/c", 60000⟩]) := by
  refine ⟨?_, ?_, ?_, ?_⟩
  · rw [(c7_failures_surface_as_json_500 upstreamAlwaysFail "http://flaresolverr:8191/v1"
      "http://example.com" "https://t" "request.get").2.2.2.2.2.1
      { solution := none, status := some "error", message := some "X" } rfl (by decide)]
    rfl
  · rw [(c7_failures_surface_as_json_500 upstreamTransport "http://flaresolverr:8191/v1"
      "http://u" "http://example.com/a" "request.get").2.2.2.2.2.2.1
      "connection refused" rfl]
    rfl
  · rw [(c7_failures_surface_as_json_500 upstreamReadErr "http://flaresolverr:8191/v1"
      "http://u" "https://example.org/b" "request.get").2.2.2.2.2.2.2.1
      "unexpected EOF" rfl]
    rfl
  · rw [(c7_failures_surface_as_json_500 upstreamMalformed "http://flaresolverr:8191/v1"
      "http://u" "https://example.org/c" "request.post").2.2.2.2.2.2.2.2.1
      "invalid character p" rfl]
    rfl

/-- C8 counterexample: the 405 response for a non-GET non-CONNECT
proxy-mode method is written by Go's http.Error, which appends a newline,
so the body is not exactly the string Method not allowed. -/
theorem c8_counterexample_trailing_newline :
    (proxyServeHTTP upstreamAlwaysOk "http://flaresolverr:8191/v1" "POST"
        "http://example.com").1.status = 405 ∧
    (proxyServeHTTP upstreamAlwaysOk "http://flaresolverr:8191/v1" "POST"
        "http://example.com").1.body = ResponseBody.raw "Method not allowed\n" ∧
    (proxyServeHTTP upstreamAlwaysOk "http://flaresolverr:8191/v1" "POST"
        "http://example.com").1.body ≠ ResponseBody.raw "Method not allowed" := by
  refine ⟨rfl, rfl, by decide⟩

/-- C8 amended: local validation failures never reach the upstream: a
direct-mode request with path slash or empty always yields HTTP 400 and no
upstream call; a proxy-mode CONNECT always yields HTTP 405, a body whose
text contains the substring CONNECT method is not supported (at index 0),
and no upstream call; any other non-GET proxy-mode method always yields
HTTP 405 with body exactly Method not allowed followed by the newline that
the Go http.Error helper appends, and no upstream call. -/
theorem c8_amended_local_validation (upstream : Upstream)
    (baseURL method urlStr path rawQuery : String) :
    (path = "/" ∨ path = "" →
      (directServeHTTP upstream baseURL method path rawQuery).1.status = 400 ∧
      (directServeHTTP upstream baseURL method path rawQuery).2 = []) ∧
    ((proxyServeHTTP upstream baseURL "CONNECT" urlStr).1.status = 405 ∧
      strIndexOf connectErrorMessage "CONNECT method is not supported" = some 0 ∧
      (proxyServeHTTP upstream baseURL "CONNECT" urlStr).1.body = .raw connectErrorMessage ∧
      (proxyServeHTTP upstream baseURL "CONNECT" urlStr).2 = []) ∧
    (method ≠ "GET" → method ≠ "CONNECT" →
      proxyServeHTTP upstream baseURL method urlStr =
        (goHttpError "Method not allowed" 405, [])) := by
  refine ⟨?_, ⟨rfl, by decide, rfl, rfl⟩, ?_⟩
  · intro h
    unfold directServeHTTP
    rw [if_pos h]
    exact ⟨rfl, rfl⟩
  · intro h1 h2
    unfold proxyServeHTTP
    rw [if_neg h1, if_neg h2]

/-- C8 amended witness: the root path, and a proxy-mode POST. -/
theorem c8_amended_witness :
    (directServeHTTP upstreamAlwaysOk "http://flaresolverr:8191/v1" "GET" "/" "").1.status = 400 ∧
    (directServeHTTP upstreamAlwaysOk "http://flaresolverr:8191/v1" "GET" "/" "").2 = [] ∧
    proxyServeHTTP upstreamAlwaysOk "http://flaresolverr:8191/v1" "POST" "http://example.com" =
      (goHttpError "Method not allowed" 405, []) := by
  obtain ⟨h1, _, h3⟩ := c8_amended_local_validation upstreamAlwaysOk
    "http://flaresolverr:8191/v1" "GET" "http://example.com" "/" ""
  have h4 := (c8_amended_local_validation upstreamAlwaysOk
    "http://flaresolverr:8191/v1" "POST" "http://example.com" "/" "").2.2
  exact ⟨(h1 (Or.inl rfl)).1, (h1 (Or.inl rfl)).2, h4 (by decide) (by decide)⟩

end FlareProxy
